import Mathlib

/-!
Verification of the MCP repository-manager server (`simple_mcp_server.py`).

The server is embedded shallowly:

* JSON values (the decoded form of every message, parameter object and
  HTTP body) are the inductive `JValue`.
* Python `dict.get` semantics, truthiness (`if not x:`) and `str()`
  interpolation are modelled by `dictGet` / `JValue.truthy` / `pyStr`.
* The HTTP collaborator (httpx) is a stub `Net` giving the outcome of
  each of the three endpoints the server can hit; every executor returns
  its Tool Result together with the list of external calls it actually
  performed, so "no external call is attempted" is a statement about
  that log.
* Statements that can raise in Python (`.get` on a non-dict,
  `response.json()` on an unparseable body, a transport fault in the
  HTTP call) are threaded through `Except String`; the executors' `try`
  blocks catch everything (`createTry`/`deleteTry` produce the raw
  outcome, `create_github_repository`/`delete_github_repository` wrap it
  exactly as the `except Exception` handlers do), while the dispatcher
  `handle_message` has no handler, so its exceptions propagate to the
  transport loop's `-32603` branch.
-/

/-- A decoded JSON value, as produced by `json.loads`.  Numbers are
modelled as integers (every number the server manipulates — ids and
status codes — is integral).  An object is an association list in
insertion order, matching a Python dict literal. -/
inductive JValue where
  | null
  | bool (b : Bool)
  | num (n : Int)
  | str (s : String)
  | arr (elems : List JValue)
  | obj (fields : List (String × JValue))

/-- Python truthiness, the meaning of `if not x:` on a decoded JSON
value: `None`, `False`, `0`, the empty string, the empty list and the
empty dict are falsy, everything else truthy. -/
def JValue.truthy : JValue → Bool
  | .null => false
  | .bool b => b
  | .num n => n != 0
  | .str s => !s.isEmpty
  | .arr elems => !elems.isEmpty
  | .obj fields => !fields.isEmpty

/-- The Python type name of a value, as it appears in an
`AttributeError` message. -/
def JValue.pyType : JValue → String
  | .null => "NoneType"
  | .bool _ => "bool"
  | .num _ => "int"
  | .str _ => "str"
  | .arr _ => "list"
  | .obj _ => "dict"

/-- The `str(e)` text of the `AttributeError` raised when `.get` (or any
attribute) is looked up on a non-dict value. -/
def attrError (v : JValue) (attr : String) : String :=
  "\x27" ++ v.pyType ++ "\x27 object has no attribute \x27" ++ attr ++ "\x27"

/-- Python `d.get(k)` on a dict given as its field list: the first
binding of `k`, or `None` when absent. -/
def dictGet (fields : List (String × JValue)) (k : String) : JValue :=
  match fields.lookup k with
  | some v => v
  | none => .null

/-- Python `d.get(k, default)`. -/
def dictGetD (fields : List (String × JValue)) (k : String) (d : JValue) : JValue :=
  match fields.lookup k with
  | some v => v
  | none => d

/-- Python `k in d`. -/
def dictHas (fields : List (String × JValue)) (k : String) : Bool :=
  (fields.lookup k).isSome

/-- Field access on a response object for stating properties: the value
under `k` when the value is an object carrying `k`, else `null`. -/
def JValue.getJ : JValue → String → JValue
  | .obj fields, k => dictGet fields k
  | _, _ => .null

/-- Whether a JSON value is an object carrying key `k`. -/
def JValue.hasKeyJ : JValue → String → Bool
  | .obj fields, k => dictHas fields k
  | _, _ => false

mutual
/-- Python `repr()` of a decoded JSON value (strings quoted, containers
rendered recursively) — the form `str()` falls back to for containers. -/
def pyRepr : JValue → String
  | .null => "None"
  | .bool true => "True"
  | .bool false => "False"
  | .num n => toString n
  | .str s => "\x27" ++ s ++ "\x27"
  | .arr elems => "[" ++ pyReprElems elems ++ "]"
  | .obj fields => "\x7b" ++ pyReprFields fields ++ "\x7d"

/-- Comma-separated reprs of list elements. -/
def pyReprElems : List JValue → String
  | [] => ""
  | [v] => pyRepr v
  | v :: rest => pyRepr v ++ ", " ++ pyReprElems rest

/-- Comma-separated reprs of dict entries. -/
def pyReprFields : List (String × JValue) → String
  | [] => ""
  | [(k, v)] => "\x27" ++ k ++ "\x27: " ++ pyRepr v
  | (k, v) :: rest => "\x27" ++ k ++ "\x27: " ++ pyRepr v ++ ", " ++ pyReprFields rest
end

/-- Python `str()`, the meaning of f-string interpolation: identical to
`repr()` except on strings, which are inserted verbatim. -/
def pyStr : JValue → String
  | .str s => s
  | v => pyRepr v

/-- An HTTP response as httpx hands it back: the status code, and the
outcome of calling `.json()` on the body (`Except.error` when the body
does not parse, carrying the decode exception's text). -/
structure HttpResponse where
  status_code : Nat
  body : Except String JValue

/-- Outcome of one outbound HTTP call: a response, or a raised transport
exception with its `str(e)` text. -/
inductive NetResult where
  | ok (r : HttpResponse)
  | exn (e : String)

/-- Stubbed network collaborator: the outcome each of the server's three
endpoints would produce if called.  (Authentication headers are sent on
every call but are not observable in any behaviour the server exposes,
so they are not part of the stub.) -/
structure Net where
  postResult : NetResult
  userResult : NetResult
  deleteResult : NetResult

/-- Record of one external call actually performed, in order. -/
inductive ApiCall where
  | postUserRepos (payload : JValue)
  | getUser
  | deleteRepo (url : String)

/-- The `content` list of a Tool Result with a single text block. -/
def textContent (t : String) : JValue :=
  .arr [.obj [("type", .str "text"), ("text", .str t)]]

/-- A successful Tool Result envelope (no `isError` key). -/
def okEnvelope (t : String) : JValue :=
  .obj [("content", textContent t)]

/-- A failed Tool Result envelope (`isError: true`). -/
def errEnvelope (t : String) : JValue :=
  .obj [("content", textContent t), ("isError", .bool true)]

/-- The Tool Result returned when `name` is missing/falsy, shared by
both tools (lines 161-169 and 232-240 of the source). -/
def requiredNameEnvelope : JValue :=
  errEnvelope "Error: Repository name is required"

/-- Body of `create_github_repository`'s `try` block (source lines
158-214): the raw outcome — `Except.error` when a statement raises —
paired with the external calls performed. -/
def createTry (net : Net) (arguments : JValue) : Except String JValue × List ApiCall :=
  match arguments with
  | .obj afields =>
    let repo_name := dictGet afields "name"
    if repo_name.truthy then
      let base := [("name", repo_name),
                   ("private", dictGetD afields "private" (.bool false)),
                   ("auto_init", dictGetD afields "auto_init" (.bool true))]
      let json_data := JValue.obj
        (if dictHas afields "description" then
          base ++ [("description", dictGet afields "description")]
        else base)
      match net.postResult with
      | .exn e => (.error e, [.postUserRepos json_data])
      | .ok response =>
        let log := [ApiCall.postUserRepos json_data]
        if response.status_code = 201 then
          match response.body with
          | .error e => (.error e, log)
          | .ok repo_data =>
            match repo_data with
            | .obj rfields =>
              let repo_url := dictGetD rfields "html_url" (.str "Unknown")
              let clone_url := dictGetD rfields "clone_url" (.str "Unknown")
              (.ok (okEnvelope
                ("✅ Successfully created GitHub repository \x27" ++ pyStr repo_name ++
                 "\x27!\n\nRepository URL: " ++ pyStr repo_url ++
                 "\nClone URL: " ++ pyStr clone_url)), log)
            | other => (.error (attrError other "get"), log)
        else
          match response.body with
          | .error e => (.error e, log)
          | .ok error_data =>
            match error_data with
            | .obj efields =>
              let error_message := dictGetD efields "message" (.str "Unknown error")
              (.ok (errEnvelope
                ("❌ Failed to create repository: " ++ pyStr error_message ++
                 " (Status: " ++ toString response.status_code ++ ")")), log)
            | other => (.error (attrError other "get"), log)
    else
      (.ok requiredNameEnvelope, [])
  | other => (.error (attrError other "get"), [])

/-- `create_github_repository`: the `try` body with the
`except Exception` handler (source lines 216-225) wrapped around it. -/
def create_github_repository (net : Net) (arguments : JValue) : JValue × List ApiCall :=
  match createTry net arguments with
  | (.ok result, log) => (result, log)
  | (.error e, log) => (errEnvelope ("❌ Error creating repository: " ++ e), log)

/-- Body of `delete_github_repository`'s `try` block (source lines
229-291). -/
def deleteTry (net : Net) (arguments : JValue) : Except String JValue × List ApiCall :=
  match arguments with
  | .obj afields =>
    let repo_name := dictGet afields "name"
    if repo_name.truthy then
      match net.userResult with
      | .exn e => (.error e, [.getUser])
      | .ok user_response =>
        if user_response.status_code ≠ 200 then
          (.ok (errEnvelope
            ("❌ Failed to get user info: " ++ toString user_response.status_code)),
           [.getUser])
        else
          match user_response.body with
          | .error e => (.error e, [.getUser])
          | .ok user_data =>
            match user_data with
            | .obj ufields =>
              let username := dictGet ufields "login"
              let delete_url :=
                "https://api.github.com/repos/" ++ pyStr username ++ "/" ++ pyStr repo_name
              match net.deleteResult with
              | .exn e => (.error e, [.getUser, .deleteRepo delete_url])
              | .ok response =>
                let log := [ApiCall.getUser, ApiCall.deleteRepo delete_url]
                if response.status_code = 204 then
                  (.ok (okEnvelope
                    ("✅ Successfully deleted GitHub repository \x27" ++
                     pyStr repo_name ++ "\x27")), log)
                else
                  match response.body with
                  | .error e => (.error e, log)
                  | .ok error_data =>
                    match error_data with
                    | .obj efields =>
                      let error_message := dictGetD efields "message" (.str "Unknown error")
                      (.ok (errEnvelope
                        ("❌ Failed to delete repository: " ++ pyStr error_message ++
                         " (Status: " ++ toString response.status_code ++ ")")), log)
                    | other => (.error (attrError other "get"), log)
            | other => (.error (attrError other "get"), [.getUser])
    else
      (.ok requiredNameEnvelope, [])
  | other => (.error (attrError other "get"), [])

/-- `delete_github_repository`: the `try` body with the
`except Exception` handler (source lines 293-302) wrapped around it. -/
def delete_github_repository (net : Net) (arguments : JValue) : JValue × List ApiCall :=
  match deleteTry net arguments with
  | (.ok result, log) => (result, log)
  | (.error e, log) => (errEnvelope ("❌ Error deleting repository: " ++ e), log)

/-- A JSON-RPC response carrying a result. -/
def rpcResult (msg_id result : JValue) : JValue :=
  .obj [("jsonrpc", .str "2.0"), ("id", msg_id), ("result", result)]

/-- A JSON-RPC response carrying an error object. -/
def rpcError (msg_id : JValue) (code : Int) (msg : String) : JValue :=
  .obj [("jsonrpc", .str "2.0"), ("id", msg_id),
        ("error", .obj [("code", .num code), ("message", .str msg)])]

/-- `handle_initialize` (source lines 56-71): fixed capability result. -/
def handle_init (_message : JValue) (msg_id : JValue) : JValue :=
  rpcResult msg_id (.obj
    [("protocolVersion", .str "2024-11-05"),
     ("capabilities", .obj [("tools", .obj [])]),
     ("serverInfo", .obj
       [("name", .str "github-repo-creator"),
        ("version", .str "1.0.0")])])

/-- The static Tool Catalog (source lines 79-122). -/
def toolCatalog : JValue :=
  .arr
    [.obj
      [("name", .str "create_github_repository"),
       ("description", .str "Create a new GitHub repository"),
       ("inputSchema", .obj
         [("type", .str "object"),
          ("properties", .obj
            [("name", .obj
               [("type", .str "string"),
                ("description", .str "Name of the repository to create")]),
             ("private", .obj
               [("type", .str "boolean"),
                ("description", .str "Whether the repository should be private"),
                ("default", .bool false)]),
             ("description", .obj
               [("type", .str "string"),
                ("description", .str "Description of the repository")]),
             ("auto_init", .obj
               [("type", .str "boolean"),
                ("description", .str "Initialize repository with README"),
                ("default", .bool true)])]),
          ("required", .arr [.str "name"])])],
     .obj
      [("name", .str "delete_github_repository"),
       ("description", .str "Delete a GitHub repository"),
       ("inputSchema", .obj
         [("type", .str "object"),
          ("properties", .obj
            [("name", .obj
               [("type", .str "string"),
                ("description", .str "Name of the repository to delete")])]),
          ("required", .arr [.str "name"])])]]

/-- `handle_list_tools` (source lines 73-124). -/
def handle_list_tools (msg_id : JValue) : JValue :=
  rpcResult msg_id (.obj [("tools", toolCatalog)])

/-- `handle_call_tool` (source lines 126-154).  `params.get` raises when
`params` decodes to a non-dict, which propagates (`Except.error`) to the
transport loop. -/
def handle_call_tool (net : Net) (message : JValue) (msg_id : JValue) :
    Except String (JValue × List ApiCall) :=
  match message with
  | .obj mfields =>
    match dictGetD mfields "params" (.obj []) with
    | .obj pfields =>
      let arguments := dictGetD pfields "arguments" (.obj [])
      match dictGet pfields "name" with
      | .str "create_github_repository" =>
        let out := create_github_repository net arguments
        .ok (rpcResult msg_id out.1, out.2)
      | .str "delete_github_repository" =>
        let out := delete_github_repository net arguments
        .ok (rpcResult msg_id out.1, out.2)
      | tool_name =>
        .ok (rpcError msg_id (-32601) ("Unknown tool: " ++ pyStr tool_name), [])
    | other => .error (attrError other "get")
  | other => .error (attrError other "get")

/-- `handle_message` (source lines 35-54): route on `method`.
`message.get` raises when the decoded line is not a dict. -/
def handle_message (net : Net) (message : JValue) :
    Except String (JValue × List ApiCall) :=
  match message with
  | .obj mfields =>
    let msg_id := dictGet mfields "id"
    match dictGet mfields "method" with
    | .str "initialize" =>
      .ok (handle_init message msg_id, [])
    | .str "tools/list" =>
      .ok (handle_list_tools msg_id, [])
    | .str "tools/call" =>
      handle_call_tool net message msg_id
    | method =>
      .ok (rpcError msg_id (-32601) ("Method not found: " ++ pyStr method), [])
  | other => .error (attrError other "get")

/-- The response written on a `json.JSONDecodeError` (source lines
328-335): code -32700, no `id` key. -/
def parseErrorResponse (e : String) : JValue :=
  .obj [("jsonrpc", .str "2.0"),
        ("error", .obj [("code", .num (-32700)),
                        ("message", .str ("Parse error: " ++ e))])]

/-- The response written when dispatch raises (source lines 336-343):
code -32603, no `id` key. -/
def internalErrorResponse (e : String) : JValue :=
  .obj [("jsonrpc", .str "2.0"),
        ("error", .obj [("code", .num (-32603)),
                        ("message", .str ("Internal error: " ++ e))])]

/-- One iteration of `main`'s loop on one non-empty line (source lines
312-343).  The line is given as the outcome of `json.loads` on its
stripped text: `Except.error` with the decode exception's text when it
is not valid JSON. -/
def mainStep (net : Net) (line : Except String JValue) : JValue :=
  match line with
  | .error e => parseErrorResponse e
  | .ok message =>
    match handle_message net message with
    | .ok out => out.1
    | .error e => internalErrorResponse e

/-- The whole transport loop on a finite input stream: the list ends at
end-of-stream, and exactly one response line is printed per input
line. -/
def mainLoop (net : Net) (lines : List (Except String JValue)) : List JValue :=
  lines.map (mainStep net)

/-- Text of the single content block of a Tool Result, for stating
properties about the texts the executors produce. -/
def toolResultText (r : JValue) : String :=
  match r.getJ "content" with
  | .arr (c :: _) =>
    match c.getJ "text" with
    | .str s => s
    | _ => ""
  | _ => ""

/-! Substring machinery, used to state "the text mentions …" claims. -/

/-- Whether `pat` occurs as a contiguous run inside `l`. -/
def infixOf (pat : List Char) : List Char → Bool
  | [] => pat.isEmpty
  | c :: rest => pat.isPrefixOf (c :: rest) || infixOf pat rest

/-- Whether the string `pat` occurs contiguously inside `s`. -/
def strContains (s pat : String) : Bool :=
  infixOf pat.toList s.toList

theorem toList_append (s t : String) : (s ++ t).toList = s.toList ++ t.toList := by
  cases s; cases t; rfl

theorem strAppend_assoc (a b c : String) : (a ++ b) ++ c = a ++ (b ++ c) := by
  cases a; cases b; cases c
  apply congrArg String.mk
  exact List.append_assoc _ _ _

theorem isPrefixOf_append_self (l t : List Char) : l.isPrefixOf (l ++ t) = true := by
  induction l with
  | nil => simp [List.isPrefixOf]
  | cons c cs ih => simp [List.isPrefixOf, ih]

theorem infixOf_append_self (pat t : List Char) : infixOf pat (pat ++ t) = true := by
  cases h : pat ++ t with
  | nil =>
    rcases List.append_eq_nil.mp h with ⟨hp, ht⟩
    subst hp
    simp [infixOf]
  | cons c rest =>
    rw [infixOf, ← h, isPrefixOf_append_self]
    simp

theorem infixOf_self (pat : List Char) : infixOf pat pat = true := by
  have h := infixOf_append_self pat []
  rwa [List.append_nil] at h

theorem infixOf_extend (x pat l : List Char) (h : infixOf pat l = true) :
    infixOf pat (x ++ l) = true := by
  induction x with
  | nil => simpa
  | cons c cs ih => simp [infixOf, ih]

theorem strContains_suffix (a pat : String) : strContains (a ++ pat) pat = true := by
  rw [strContains, toList_append]
  exact infixOf_extend _ _ _ (infixOf_self _)

theorem strContains_middle (a pat b : String) : strContains (a ++ (pat ++ b)) pat = true := by
  rw [strContains, toList_append, toList_append]
  exact infixOf_extend _ _ _ (infixOf_append_self _ _)

theorem strContains_self (pat : String) : strContains pat pat = true := by
  rw [strContains]
  exact infixOf_self _

/-! Structural facts about every response the dispatcher can produce. -/

/-- Every successful `handle_call_tool` response echoes the given
`msg_id`, carries an `id` key, carries exactly one of `result`/`error`,
and any error object it carries has code -32601. -/
theorem handle_call_tool_ok_shape (net : Net) (message msg_id r : JValue)
    (log : List ApiCall) (h : handle_call_tool net message msg_id = .ok (r, log)) :
    r.getJ "id" = msg_id ∧ r.hasKeyJ "id" = true ∧
    (r.hasKeyJ "result" ^^ r.hasKeyJ "error") = true ∧
    (r.getJ "error" = JValue.null ∨ (r.getJ "error").getJ "code" = JValue.num (-32601)) := by
  cases message with
  | obj mfields =>
    simp only [handle_call_tool] at h
    split at h
    · split at h <;>
        simp only [Except.ok.injEq, Prod.mk.injEq] at h <;>
        obtain ⟨hr, -⟩ := h <;>
        subst hr <;>
        simp [rpcResult, rpcError, JValue.getJ, JValue.hasKeyJ, dictGet, dictHas, List.lookup]
    · exact absurd h (by simp)
  | null => exact absurd h (by simp [handle_call_tool])
  | bool b => exact absurd h (by simp [handle_call_tool])
  | num n => exact absurd h (by simp [handle_call_tool])
  | str s => exact absurd h (by simp [handle_call_tool])
  | arr elems => exact absurd h (by simp [handle_call_tool])

/-- Every response `handle_message` produces without raising echoes the
request's `id` (its `.get("id")` value, `null` when absent), carries an
`id` key, carries exactly one of `result`/`error`, and any error object
it carries has code -32601. -/
theorem handle_message_ok_shape (net : Net) (message r : JValue)
    (log : List ApiCall) (h : handle_message net message = .ok (r, log)) :
    r.getJ "id" = message.getJ "id" ∧ r.hasKeyJ "id" = true ∧
    (r.hasKeyJ "result" ^^ r.hasKeyJ "error") = true ∧
    (r.getJ "error" = JValue.null ∨ (r.getJ "error").getJ "code" = JValue.num (-32601)) := by
  cases message with
  | obj mfields =>
    simp only [handle_message] at h
    split at h
    · simp only [Except.ok.injEq, Prod.mk.injEq] at h
      obtain ⟨hr, -⟩ := h
      subst hr
      simp [handle_init, rpcResult, JValue.getJ, JValue.hasKeyJ, dictGet, dictHas,
            List.lookup]
    · simp only [Except.ok.injEq, Prod.mk.injEq] at h
      obtain ⟨hr, -⟩ := h
      subst hr
      simp [handle_list_tools, rpcResult, JValue.getJ, JValue.hasKeyJ, dictGet, dictHas,
            List.lookup]
    · have := handle_call_tool_ok_shape net (.obj mfields) (dictGet mfields "id") r log h
      simpa [JValue.getJ] using this
    · simp only [Except.ok.injEq, Prod.mk.injEq] at h
      obtain ⟨hr, -⟩ := h
      subst hr
      simp [rpcError, JValue.getJ, JValue.hasKeyJ, dictGet, dictHas, List.lookup]
  | null => exact absurd h (by simp [handle_message])
  | bool b => exact absurd h (by simp [handle_message])
  | num n => exact absurd h (by simp [handle_message])
  | str s => exact absurd h (by simp [handle_message])
  | arr elems => exact absurd h (by simp [handle_message])

theorem strContains_cons_left (x s pat : String) (h : strContains s pat = true) :
    strContains (x ++ s) pat = true := by
  rw [strContains, toList_append]
  exact infixOf_extend _ _ _ h

theorem strContains_head (pat b : String) : strContains (pat ++ b) pat = true := by
  rw [strContains, toList_append]
  exact infixOf_append_self _ _

/-! Claim C1.  The dispatcher always echoes the request's identifier,
but the transport loop's two fallback responses (-32700 parse error and
-32603 internal error, source lines 328-343) carry no `id` key at all,
and the -32603 path is reachable from a request that does carry an
identifier — so the claim fails as stated for internal-error
responses. -/

/-- A stub network whose every call raises; no claim settled with it
depends on the network. -/
def netStub : Net := ⟨.exn "stub", .exn "stub", .exn "stub"⟩

/-- A `tools/call` request carrying id 1 whose `params` decodes to the
number 5, so `params.get("name")` raises `AttributeError`. -/
def c1Request : JValue :=
  .obj [("jsonrpc", .str "2.0"), ("id", .num 1),
        ("method", .str "tools/call"), ("params", .num 5)]

/-- C1 counterexample: `c1Request` carries identifier 1, yet the single
Response the loop emits for it is the internal-error (-32603) response,
which carries no identifier at all. -/
theorem C1_counterexample :
    c1Request.getJ "id" = JValue.num 1 ∧
    mainStep netStub (Except.ok c1Request) =
      internalErrorResponse "\x27int\x27 object has no attribute \x27get\x27" ∧
    (mainStep netStub (Except.ok c1Request)).hasKeyJ "id" = false ∧
    ((mainStep netStub (Except.ok c1Request)).getJ "error").getJ "code" =
      JValue.num (-32603) :=
  ⟨rfl, rfl, rfl, rfl⟩

/-- C1 (amended): the loop emits exactly one Response per input line,
and every Response the dispatcher produces without raising carries the
request's identifier unchanged; the transport's parse-error and
internal-error responses carry no identifier. -/
theorem C1_amended_id_roundtrip (net : Net) (lines : List (Except String JValue))
    (message r : JValue) (log : List ApiCall)
    (h : handle_message net message = .ok (r, log)) :
    (mainLoop net lines).length = lines.length ∧
    r.getJ "id" = message.getJ "id" ∧
    r.hasKeyJ "id" = true ∧
    (∀ e, (mainStep net (Except.error e)).hasKeyJ "id" = false) ∧
    (∀ m e, handle_message net m = Except.error e →
      (mainStep net (Except.ok m)).hasKeyJ "id" = false) := by
  obtain ⟨hid, hkey, -, -⟩ := handle_message_ok_shape net message r log h
  refine ⟨by simp [mainLoop], hid, hkey, fun e => rfl, fun m e hm => ?_⟩
  simp [mainStep, hm, internalErrorResponse, JValue.hasKeyJ, dictHas, List.lookup]

/-- An `initialize` request carrying id 7, used to instantiate C1. -/
def initRequest : JValue :=
  .obj [("jsonrpc", .str "2.0"), ("id", .num 7), ("method", .str "initialize")]

/-- C1 witness: the amended theorem applied to `initRequest`. -/
theorem C1_witness :
    (mainLoop netStub [Except.ok initRequest]).length =
      ([Except.ok initRequest] : List (Except String JValue)).length ∧
    (handle_init initRequest (JValue.num 7)).getJ "id" = initRequest.getJ "id" ∧
    (handle_init initRequest (JValue.num 7)).hasKeyJ "id" = true ∧
    (∀ e, (mainStep netStub (Except.error e)).hasKeyJ "id" = false) ∧
    (∀ m e, handle_message netStub m = Except.error e →
      (mainStep netStub (Except.ok m)).hasKeyJ "id" = false) :=
  C1_amended_id_roundtrip netStub [Except.ok initRequest] initRequest
    (handle_init initRequest (JValue.num 7)) [] rfl

/-! Claim C2: a non-200 user lookup in `delete_github_repository`
produces an isError result naming the lookup status code, and the
deletion endpoint is never hit (the call log is exactly the lookup). -/

/-- C2: when the user-lookup stub answers with any status other than
200, `delete_github_repository` returns isError=true with the
failed-lookup text carrying that status code, and the only external
call performed is the lookup — the deletion endpoint is never called. -/
theorem C2_delete_user_lookup_failure (net : Net) (afields : List (String × JValue))
    (resp : HttpResponse)
    (hname : (dictGet afields "name").truthy = true)
    (hstub : net.userResult = NetResult.ok resp)
    (hcode : resp.status_code ≠ 200) :
    (delete_github_repository net (.obj afields)).1.getJ "isError" = JValue.bool true ∧
    toolResultText (delete_github_repository net (.obj afields)).1 =
      "❌ Failed to get user info: " ++ toString resp.status_code ∧
    strContains (toolResultText (delete_github_repository net (.obj afields)).1)
      ("Failed to get user info: " ++ toString resp.status_code) = true ∧
    (delete_github_repository net (.obj afields)).2 = [ApiCall.getUser] := by
  have hout : delete_github_repository net (.obj afields) =
      (errEnvelope ("❌ Failed to get user info: " ++ toString resp.status_code),
       [ApiCall.getUser]) := by
    simp [delete_github_repository, deleteTry, hname, hstub, if_pos hcode]
  rw [hout]
  refine ⟨by simp [errEnvelope, textContent, JValue.getJ, dictGet, List.lookup], ?_, ?_, rfl⟩
  · simp [errEnvelope, textContent, toolResultText, JValue.getJ, dictGet, List.lookup]
  · have hsplit : ("❌ Failed to get user info: " : String) =
        "❌ " ++ "Failed to get user info: " := rfl
    have htext : toolResultText
        (errEnvelope ("❌ Failed to get user info: " ++ toString resp.status_code)) =
        "❌ Failed to get user info: " ++ toString resp.status_code := by
      simp [errEnvelope, textContent, toolResultText, JValue.getJ, dictGet, List.lookup]
    rw [htext, hsplit, strAppend_assoc]
    exact strContains_cons_left _ _ _ (strContains_self _)

/-- A stub network answering the user lookup with status 403, so that
deletion must abort. -/
def c2Net : Net := ⟨.exn "stub", .ok ⟨403, .ok (.obj [])⟩, .exn "stub"⟩

/-- C2 witness: the theorem at a concrete 403 lookup. -/
theorem C2_witness :
    (delete_github_repository c2Net (.obj [("name", JValue.str "demo")])).1.getJ "isError" =
      JValue.bool true ∧
    toolResultText (delete_github_repository c2Net (.obj [("name", JValue.str "demo")])).1 =
      "❌ Failed to get user info: " ++ toString (403 : Nat) ∧
    strContains
      (toolResultText (delete_github_repository c2Net (.obj [("name", JValue.str "demo")])).1)
      ("Failed to get user info: " ++ toString (403 : Nat)) = true ∧
    (delete_github_repository c2Net (.obj [("name", JValue.str "demo")])).2 =
      [ApiCall.getUser] :=
  C2_delete_user_lookup_failure c2Net [("name", JValue.str "demo")] ⟨403, .ok (.obj [])⟩
    rfl rfl (by decide)

/-! Claim C3: `create_github_repository` with an empty or absent `name`
fails fast, with no external call. -/

/-- C3: with `name` absent from the arguments or bound to the empty
string, `create_github_repository` returns the required-name Tool
Result (isError=true) and makes no external call. -/
theorem C3_create_missing_name (net : Net) (afields : List (String × JValue))
    (hname : afields.lookup "name" = none ∨ dictGet afields "name" = JValue.str "") :
    create_github_repository net (.obj afields) = (requiredNameEnvelope, []) ∧
    requiredNameEnvelope.getJ "isError" = JValue.bool true ∧
    toolResultText requiredNameEnvelope = "Error: Repository name is required" ∧
    strContains (toolResultText requiredNameEnvelope) "Repository name is required" = true := by
  have hfalsy : (dictGet afields "name").truthy = false := by
    rcases hname with h | h
    · simp [dictGet, h, JValue.truthy]
    · rw [h]; rfl
  exact ⟨by simp [create_github_repository, createTry, hfalsy], rfl, rfl, rfl⟩

/-- C3 witness: the theorem at arguments that omit `name` entirely. -/
theorem C3_witness :
    create_github_repository netStub (.obj [("private", JValue.bool true)]) =
      (requiredNameEnvelope, []) ∧
    requiredNameEnvelope.getJ "isError" = JValue.bool true ∧
    toolResultText requiredNameEnvelope = "Error: Repository name is required" ∧
    strContains (toolResultText requiredNameEnvelope) "Repository name is required" = true :=
  C3_create_missing_name netStub [("private", JValue.bool true)] (Or.inl rfl)

/-! Claim C4: `tools/call` naming an unregistered tool yields a
protocol-level -32601 error naming the tool, never a Tool Result. -/

/-- C4: a `tools/call` request whose `params.name` is a string matching
neither registered tool gets the -32601 error response whose message
contains the tool name; the response carries no `result` key, so no
Tool Result envelope is returned, and no external call is made. -/
theorem C4_unknown_tool (net : Net) (mfields pfields : List (String × JValue)) (n : String)
    (hmethod : dictGet mfields "method" = JValue.str "tools/call")
    (hparams : dictGetD mfields "params" (.obj []) = JValue.obj pfields)
    (hname : dictGet pfields "name" = JValue.str n)
    (hn1 : n ≠ "create_github_repository")
    (hn2 : n ≠ "delete_github_repository") :
    handle_message net (.obj mfields) =
      .ok (rpcError (dictGet mfields "id") (-32601) ("Unknown tool: " ++ n), []) ∧
    ((rpcError (dictGet mfields "id") (-32601) ("Unknown tool: " ++ n)).getJ "error").getJ
      "code" = JValue.num (-32601) ∧
    strContains ("Unknown tool: " ++ n) n = true ∧
    (rpcError (dictGet mfields "id") (-32601) ("Unknown tool: " ++ n)).hasKeyJ "result" =
      false := by
  refine ⟨?_, by simp [rpcError, JValue.getJ, dictGet, List.lookup],
    strContains_suffix _ _, by simp [rpcError, JValue.hasKeyJ, dictHas, List.lookup]⟩
  simp only [handle_message]
  split
  · simp_all
  · simp_all
  · simp only [handle_call_tool, hparams]
    rw [hname]
    split
    · simp_all
    · simp_all
    · rename_i tool_name h1 h2
      simp [pyStr]
  · simp_all

/-- C4 witness: the theorem at a concrete request naming the tool
`frobnicate`. -/
theorem C4_witness :
    handle_message netStub
      (.obj [("id", JValue.num 2), ("method", JValue.str "tools/call"),
             ("params", JValue.obj [("name", JValue.str "frobnicate")])]) =
      .ok (rpcError
        (dictGet [("id", JValue.num 2), ("method", JValue.str "tools/call"),
                  ("params", JValue.obj [("name", JValue.str "frobnicate")])] "id")
        (-32601) ("Unknown tool: " ++ "frobnicate"), []) ∧
    ((rpcError
        (dictGet [("id", JValue.num 2), ("method", JValue.str "tools/call"),
                  ("params", JValue.obj [("name", JValue.str "frobnicate")])] "id")
        (-32601) ("Unknown tool: " ++ "frobnicate")).getJ "error").getJ "code" =
      JValue.num (-32601) ∧
    strContains ("Unknown tool: " ++ "frobnicate") "frobnicate" = true ∧
    (rpcError
        (dictGet [("id", JValue.num 2), ("method", JValue.str "tools/call"),
                  ("params", JValue.obj [("name", JValue.str "frobnicate")])] "id")
        (-32601) ("Unknown tool: " ++ "frobnicate")).hasKeyJ "result" = false :=
  C4_unknown_tool netStub
    [("id", JValue.num 2), ("method", JValue.str "tools/call"),
     ("params", JValue.obj [("name", JValue.str "frobnicate")])]
    [("name", JValue.str "frobnicate")] "frobnicate"
    rfl rfl rfl (by decide) (by decide)

/-! Claim C5: a 201 creation response yields a success Tool Result whose
text carries both URLs from the response body, with no isError flag. -/

/-- C5: with a valid (truthy) name and the creation stub answering 201
with a body carrying `html_url` and `clone_url`, the Tool Result has no
`isError` key and its text contains both URLs. -/
theorem C5_create_success (net : Net) (afields rfields : List (String × JValue))
    (resp : HttpResponse) (u c : String)
    (hname : (dictGet afields "name").truthy = true)
    (hpost : net.postResult = NetResult.ok resp)
    (hstatus : resp.status_code = 201)
    (hbody : resp.body = Except.ok (JValue.obj rfields))
    (hurl : rfields.lookup "html_url" = some (JValue.str u))
    (hclone : rfields.lookup "clone_url" = some (JValue.str c)) :
    (create_github_repository net (.obj afields)).1.hasKeyJ "isError" = false ∧
    strContains (toolResultText (create_github_repository net (.obj afields)).1) u = true ∧
    strContains (toolResultText (create_github_repository net (.obj afields)).1) c = true := by
  have hout : (create_github_repository net (.obj afields)).1 =
      okEnvelope
        ("✅ Successfully created GitHub repository \x27" ++ pyStr (dictGet afields "name") ++
         "\x27!\n\nRepository URL: " ++ u ++ "\nClone URL: " ++ c) := by
    simp [create_github_repository, createTry, hname, hpost, hstatus, hbody,
          dictGetD, hurl, hclone, pyStr]
  rw [hout]
  have htext : toolResultText
      (okEnvelope
        ("✅ Successfully created GitHub repository \x27" ++ pyStr (dictGet afields "name") ++
         "\x27!\n\nRepository URL: " ++ u ++ "\nClone URL: " ++ c)) =
      "✅ Successfully created GitHub repository \x27" ++ pyStr (dictGet afields "name") ++
        "\x27!\n\nRepository URL: " ++ u ++ "\nClone URL: " ++ c := by
    simp [okEnvelope, textContent, toolResultText, JValue.getJ, dictGet, List.lookup]
  refine ⟨by simp [okEnvelope, textContent, JValue.hasKeyJ, dictHas, List.lookup], ?_, ?_⟩
  · rw [htext]
    simp only [strAppend_assoc]
    refine strContains_cons_left _ _ _ (strContains_cons_left _ _ _
      (strContains_cons_left _ _ _ ?_))
    exact strContains_head u ("\nClone URL: " ++ c)
  · rw [htext]
    simp only [strAppend_assoc]
    refine strContains_cons_left _ _ _ (strContains_cons_left _ _ _
      (strContains_cons_left _ _ _ (strContains_cons_left _ _ _ ?_)))
    exact strContains_suffix "\nClone URL: " c

/-- A stub network whose creation endpoint answers 201 with both
URLs. -/
def c5Net : Net :=
  ⟨.ok ⟨201, .ok (.obj [("html_url", .str "https://github.com/u/demo"),
                        ("clone_url", .str "https://github.com/u/demo.git")])⟩,
   .exn "stub", .exn "stub"⟩

/-- C5 witness: the theorem at the concrete 201 stub. -/
theorem C5_witness :
    (create_github_repository c5Net (.obj [("name", JValue.str "demo")])).1.hasKeyJ
      "isError" = false ∧
    strContains (toolResultText (create_github_repository c5Net
      (.obj [("name", JValue.str "demo")])).1) "https://github.com/u/demo" = true ∧
    strContains (toolResultText (create_github_repository c5Net
      (.obj [("name", JValue.str "demo")])).1) "https://github.com/u/demo.git" = true :=
  C5_create_success c5Net [("name", JValue.str "demo")]
    [("html_url", JValue.str "https://github.com/u/demo"),
     ("clone_url", JValue.str "https://github.com/u/demo.git")]
    ⟨201, .ok (.obj [("html_url", JValue.str "https://github.com/u/demo"),
                     ("clone_url", JValue.str "https://github.com/u/demo.git")])⟩
    "https://github.com/u/demo" "https://github.com/u/demo.git"
    rfl rfl rfl rfl rfl rfl

/-! Claim C6.  On a non-201 creation response the code formats
"<message> (Status: <code>)" only when `response.json()` succeeds and
yields a dict; the default "Unknown error" applies only when the
`message` FIELD is absent.  When the BODY is unparseable,
`response.json()` raises (source line 203) and the catch-all handler
returns "Error creating repository: <exception>" with no status code —
contradicting the claim's "defaulting … when the body is
unparseable". -/

/-- A stub network whose creation endpoint answers 500 with a body that
does not parse as JSON. -/
def c6BadNet : Net :=
  ⟨.ok ⟨500, .error "Expecting value: line 1 column 1 (char 0)"⟩, .exn "stub", .exn "stub"⟩

/-- C6 counterexample: creation fails with status 500 and an
unparseable body, yet the result text is the catch-all exception text,
which never mentions the status at all — not "<message>
(Status: <code>)" with message defaulted to "Unknown error". -/
theorem C6_counterexample :
    (create_github_repository c6BadNet (.obj [("name", JValue.str "demo")])).1.getJ
      "isError" = JValue.bool true ∧
    toolResultText (create_github_repository c6BadNet (.obj [("name", JValue.str "demo")])).1 =
      "❌ Error creating repository: Expecting value: line 1 column 1 (char 0)" ∧
    strContains
      (toolResultText (create_github_repository c6BadNet
        (.obj [("name", JValue.str "demo")])).1) "(Status:" = false ∧
    strContains
      (toolResultText (create_github_repository c6BadNet
        (.obj [("name", JValue.str "demo")])).1) "Unknown error" = false :=
  ⟨rfl, rfl, by decide, by decide⟩

/-- C6 (amended): on a non-201 status with a body that parses to an
object, the result is isError=true with text
"<message> (Status: <code>)", the message defaulting to
"Unknown error" only when the field is absent; when the body is
unparseable, the result is instead the catch-all isError=true text
"Error creating repository: <exception>", with no status code. -/
theorem C6_amended_create_failure (net : Net) (afields : List (String × JValue))
    (resp : HttpResponse)
    (hname : (dictGet afields "name").truthy = true)
    (hpost : net.postResult = NetResult.ok resp)
    (hstatus : resp.status_code ≠ 201) :
    (∀ efields, resp.body = Except.ok (JValue.obj efields) →
      (create_github_repository net (.obj afields)).1.getJ "isError" = JValue.bool true ∧
      toolResultText (create_github_repository net (.obj afields)).1 =
        "❌ Failed to create repository: " ++
          pyStr (dictGetD efields "message" (.str "Unknown error")) ++
          " (Status: " ++ toString resp.status_code ++ ")") ∧
    (∀ e, resp.body = Except.error e →
      (create_github_repository net (.obj afields)).1.getJ "isError" = JValue.bool true ∧
      toolResultText (create_github_repository net (.obj afields)).1 =
        "❌ Error creating repository: " ++ e) := by
  constructor
  · intro efields hbody
    have hout : (create_github_repository net (.obj afields)).1 =
        errEnvelope
          ("❌ Failed to create repository: " ++
            pyStr (dictGetD efields "message" (.str "Unknown error")) ++
            " (Status: " ++ toString resp.status_code ++ ")") := by
      simp [create_github_repository, createTry, hname, hpost, if_neg hstatus, hbody]
    rw [hout]
    exact ⟨by simp [errEnvelope, textContent, JValue.getJ, dictGet, List.lookup],
           by simp [errEnvelope, textContent, toolResultText, JValue.getJ, dictGet,
                    List.lookup]⟩
  · intro e hbody
    have hout : (create_github_repository net (.obj afields)).1 =
        errEnvelope ("❌ Error creating repository: " ++ e) := by
      simp [create_github_repository, createTry, hname, hpost, if_neg hstatus, hbody]
    rw [hout]
    exact ⟨by simp [errEnvelope, textContent, JValue.getJ, dictGet, List.lookup],
           by simp [errEnvelope, textContent, toolResultText, JValue.getJ, dictGet,
                    List.lookup]⟩

/-- A stub network whose creation endpoint answers 422 with a parseable
error body. -/
def c6Net : Net :=
  ⟨.ok ⟨422, .ok (.obj [("message", .str "Repository creation failed.")])⟩,
   .exn "stub", .exn "stub"⟩

/-- C6 witness: the amended theorem's parseable-body clause at the
concrete 422 stub. -/
theorem C6_witness :
    (create_github_repository c6Net (.obj [("name", JValue.str "demo")])).1.getJ
      "isError" = JValue.bool true ∧
    toolResultText (create_github_repository c6Net (.obj [("name", JValue.str "demo")])).1 =
      "❌ Failed to create repository: " ++
        pyStr (dictGetD [("message", JValue.str "Repository creation failed.")] "message"
          (.str "Unknown error")) ++
        " (Status: " ++ toString (422 : Nat) ++ ")" :=
  (C6_amended_create_failure c6Net [("name", JValue.str "demo")]
      ⟨422, .ok (.obj [("message", JValue.str "Repository creation failed.")])⟩
      rfl rfl (by decide)).1
    [("message", JValue.str "Repository creation failed.")] rfl

/-! Claim C7: a malformed line yields exactly one -32700 response with
no identifier, and the loop continues; only end-of-stream ends it. -/

/-- C7: wherever a decode-failing line sits in the stream, the loop's
output is the outputs for the preceding lines, then exactly one
parse-error response (code -32700, no `id` key), then the outputs for
the following lines — the loop processes every line, terminating only
at end-of-stream (the end of the input list). -/
theorem C7_parse_error_continues (net : Net) (pre post : List (Except String JValue))
    (e : String) :
    mainLoop net (pre ++ Except.error e :: post) =
      mainLoop net pre ++ parseErrorResponse e :: mainLoop net post ∧
    (parseErrorResponse e).hasKeyJ "id" = false ∧
    ((parseErrorResponse e).getJ "error").getJ "code" = JValue.num (-32700) ∧
    (mainLoop net (pre ++ Except.error e :: post)).length = pre.length + 1 + post.length := by
  refine ⟨by simp [mainLoop, mainStep], rfl, rfl, ?_⟩
  simp [mainLoop]
  omega

/-! Claim C8: every Response carries exactly one of `result`/`error`. -/

/-- C8: whatever line the transport loop processes — malformed, a
dispatchable request, or one whose handling raises — the single
Response it emits carries exactly one of a `result` key and an `error`
key, never both and never neither. -/
theorem C8_result_error_exclusive (net : Net) (line : Except String JValue) :
    ((mainStep net line).hasKeyJ "result" ^^ (mainStep net line).hasKeyJ "error") = true := by
  cases line with
  | error e =>
    simp [mainStep, parseErrorResponse, JValue.hasKeyJ, dictHas, List.lookup]
  | ok m =>
    rcases hm : handle_message net m with e | out
    · simp [mainStep, hm, internalErrorResponse, JValue.hasKeyJ, dictHas, List.lookup]
    · have hshape := handle_message_ok_shape net m out.1 out.2 (by rw [hm])
      simp only [mainStep, hm]
      exact hshape.2.2.1

/-! Claim C9: name validation is by Python truthiness, for both tools. -/

/-- C9: whenever the `name` argument is falsy — absent (so `.get` gives
`None`), `null`, `false`, `0`, the empty string, or even an empty
list/dict — both executors return the required-name Tool Result
(isError=true) and perform no external call. -/
theorem C9_truthiness_validation (net : Net) (afields : List (String × JValue))
    (hfalsy : (dictGet afields "name").truthy = false) :
    create_github_repository net (.obj afields) = (requiredNameEnvelope, []) ∧
    delete_github_repository net (.obj afields) = (requiredNameEnvelope, []) ∧
    requiredNameEnvelope.getJ "isError" = JValue.bool true ∧
    toolResultText requiredNameEnvelope = "Error: Repository name is required" := by
  refine ⟨?_, ?_, rfl, rfl⟩
  · simp [create_github_repository, createTry, hfalsy]
  · simp [delete_github_repository, deleteTry, hfalsy]

/-- C9 witness: the theorem at `name: false` — a falsy value that is
neither an empty nor an absent string. -/
theorem C9_witness :
    create_github_repository netStub (.obj [("name", JValue.bool false)]) =
      (requiredNameEnvelope, []) ∧
    delete_github_repository netStub (.obj [("name", JValue.bool false)]) =
      (requiredNameEnvelope, []) ∧
    requiredNameEnvelope.getJ "isError" = JValue.bool true ∧
    toolResultText requiredNameEnvelope = "Error: Repository name is required" :=
  C9_truthiness_validation netStub [("name", JValue.bool false)] rfl

/-! Claim C10: a `tools/call` without `params`, or whose params lack
`name`, gets the -32601 unknown-tool error naming `None`; -32602 is
never produced; a missing `arguments` entry defaults to `{}`. -/

/-- C10: (1) with `params` absent the dispatcher answers the -32601
error "Unknown tool: None"; (2) likewise when `params` is an object
without a `name` entry; (3) no response the loop can emit ever carries
error code -32602; (4) with `arguments` absent, the named tool is
executed on the empty object rather than rejected. -/
theorem C10_missing_tool_name (net : Net) (mfields : List (String × JValue))
    (hmethod : dictGet mfields "method" = JValue.str "tools/call") :
    (mfields.lookup "params" = none →
      handle_message net (.obj mfields) =
        .ok (rpcError (dictGet mfields "id") (-32601) "Unknown tool: None", [])) ∧
    (∀ pfields, dictGetD mfields "params" (.obj []) = JValue.obj pfields →
      pfields.lookup "name" = none →
      handle_message net (.obj mfields) =
        .ok (rpcError (dictGet mfields "id") (-32601) "Unknown tool: None", [])) ∧
    (∀ line, ((mainStep net line).getJ "error").getJ "code" ≠ JValue.num (-32602)) ∧
    (∀ pfields, dictGetD mfields "params" (.obj []) = JValue.obj pfields →
      dictGet pfields "name" = JValue.str "create_github_repository" →
      pfields.lookup "arguments" = none →
      handle_message net (.obj mfields) =
        .ok (rpcResult (dictGet mfields "id") (create_github_repository net (.obj [])).1,
             (create_github_repository net (.obj [])).2)) := by
  have hdispatch : ∀ pfields, dictGetD mfields "params" (.obj []) = JValue.obj pfields →
      pfields.lookup "name" = none →
      handle_message net (.obj mfields) =
        .ok (rpcError (dictGet mfields "id") (-32601) "Unknown tool: None", []) := by
    intro pfields hparams hnone
    have hname : dictGet pfields "name" = JValue.null := by simp [dictGet, hnone]
    simp only [handle_message]
    split
    · simp_all
    · simp_all
    · simp only [handle_call_tool, hparams]
      rw [hname]
      rfl
    · simp_all
  refine ⟨?_, hdispatch, ?_, ?_⟩
  · intro hnone
    exact hdispatch [] (by simp [dictGetD, hnone]) rfl
  · intro line
    cases line with
    | error e => simp [mainStep, parseErrorResponse, JValue.getJ, dictGet, List.lookup]
    | ok m =>
      rcases hm : handle_message net m with e | out
      · simp [mainStep, hm, internalErrorResponse, JValue.getJ, dictGet, List.lookup]
      · have hshape := handle_message_ok_shape net m out.1 out.2 (by rw [hm])
        simp only [mainStep, hm]
        rcases hshape.2.2.2 with hnull | hcode
        · rw [hnull]; simp [JValue.getJ]
        · rw [hcode]; simp
  · intro pfields hparams hcreate hargs
    have hargdef : dictGetD pfields "arguments" (.obj []) = JValue.obj [] := by
      simp [dictGetD, hargs]
    simp only [handle_message]
    split
    · simp_all
    · simp_all
    · simp only [handle_call_tool, hparams, hargdef]
      rw [hcreate]
      rfl
    · simp_all

/-- C10 witness: the theorem's conjuncts at a concrete `tools/call`
request with no `params` key. -/
theorem C10_witness :
    ([("id", JValue.num 3), ("method", JValue.str "tools/call")].lookup "params" = none →
      handle_message netStub
        (.obj [("id", JValue.num 3), ("method", JValue.str "tools/call")]) =
        .ok (rpcError
          (dictGet [("id", JValue.num 3), ("method", JValue.str "tools/call")] "id")
          (-32601) "Unknown tool: None", [])) ∧
    (∀ pfields,
      dictGetD [("id", JValue.num 3), ("method", JValue.str "tools/call")] "params"
        (.obj []) = JValue.obj pfields →
      pfields.lookup "name" = none →
      handle_message netStub
        (.obj [("id", JValue.num 3), ("method", JValue.str "tools/call")]) =
        .ok (rpcError
          (dictGet [("id", JValue.num 3), ("method", JValue.str "tools/call")] "id")
          (-32601) "Unknown tool: None", [])) ∧
    (∀ line, ((mainStep netStub line).getJ "error").getJ "code" ≠ JValue.num (-32602)) ∧
    (∀ pfields,
      dictGetD [("id", JValue.num 3), ("method", JValue.str "tools/call")] "params"
        (.obj []) = JValue.obj pfields →
      dictGet pfields "name" = JValue.str "create_github_repository" →
      pfields.lookup "arguments" = none →
      handle_message netStub
        (.obj [("id", JValue.num 3), ("method", JValue.str "tools/call")]) =
        .ok (rpcResult
          (dictGet [("id", JValue.num 3), ("method", JValue.str "tools/call")] "id")
          (create_github_repository netStub (.obj [])).1,
          (create_github_repository netStub (.obj [])).2)) :=
  C10_missing_tool_name netStub [("id", JValue.num 3), ("method", JValue.str "tools/call")] rfl
